import Mathlib

/-!
# Shallow embedding of the multi-head attention notebook

This file embeds the two components of the source notebook —
`PrepareForMultiHeadAttention` and `MultiHeadAttention` — as Lean
definitions and proves properties about them.

Modelling conventions:
* A tensor is a shape (list of dimension sizes) together with a flat,
  row-major data function `ℕ → ℝ`; floating point numbers are modelled
  as reals.  A mask tensor carries rational data so that the numeric
  test `mask == 0` performed by the code is decidable.
* Operations that the underlying library rejects with a shape error
  (linear layer on a wrong trailing width, `view` with a mismatched
  element count, `einsum` with inconsistent labelled sizes,
  `masked_fill` with a non-broadcastable mask, `reshape` with a
  non-dividing target, the `assert` statements of `prepare_mask`)
  return `none`; `some` is a completed computation.
* `nn.Softmax(dim=-1)` over a row that is entirely `-inf` produces NaN
  in the source; in the embedding such entries become `0/0`, which Lean
  evaluates to `0` — the separate boolean fill pattern carried next to
  the scores keeps track of which score entries were replaced by `-inf`
  so that theorems can restrict to (or exhibit) such rows explicitly.
* `nn.Dropout` is modelled with an explicit training flag and an
  externally supplied keep pattern `keep : ℕ → Bool` for the random
  part; in evaluation mode it is the identity, as in the library.
* `tracker.add` and `.detach()` have no numeric effect and are
  modelled as no-ops.
-/

/-- A dense numeric tensor: an explicit shape and flat row-major data. -/
structure Tensor where
  shape : List ℕ
  data : ℕ → ℝ

/-- A mask tensor; the code compares its entries against `0` numerically
(`mask == 0`), so its entries are kept in `ℚ` to make that test decidable. -/
structure MaskTensor where
  shape : List ℕ
  data : ℕ → ℚ

/-- `nn.Linear(inF, outF, bias)`: weight `w : out × in`, optional bias. -/
structure LinearLayer where
  inF : ℕ
  outF : ℕ
  w : ℕ → ℕ → ℝ
  hasBias : Bool
  b : ℕ → ℝ

/-- The externally supplied weight/bias values for the four linear layers
of a `MultiHeadAttention` (query, key, value, output). -/
structure Weights where
  wq : ℕ → ℕ → ℝ
  bq : ℕ → ℝ
  wk : ℕ → ℕ → ℝ
  bk : ℕ → ℝ
  wv : ℕ → ℕ → ℝ
  bv : ℕ → ℝ
  wo : ℕ → ℕ → ℝ
  bo : ℕ → ℝ

/-- `PrepareForMultiHeadAttention` (notebook cell 2): a linear layer plus
the head counts used by the trailing `view`. -/
structure PrepareForMultiHeadAttention where
  linear : LinearLayer
  n_heads : ℕ
  d_heads : ℕ

/-- `MultiHeadAttention` (notebook cell 4): three projection heads, the
output projection, dropout probability, scale, and the diagnostic slot
`attn` that `forward` assigns. -/
structure MultiHeadAttention where
  n_heads : ℕ
  n_features : ℕ
  queryP : PrepareForMultiHeadAttention
  keyP : PrepareForMultiHeadAttention
  valueP : PrepareForMultiHeadAttention
  output : LinearLayer
  dropout_prob : ℚ
  scale : ℝ
  attn : Option Tensor

/-- Row-major flat index of `(i, b, h, j)` in a tensor of shape
`(s0, s1, s2, s3)` (the leading size is not needed). -/
def flat4 (s1 s2 s3 i b h j : ℕ) : ℕ :=
  ((i * s1 + b) * s2 + h) * s3 + j

/-- Broadcast index selection: a size-1 axis always reads position 0. -/
def bc (x m : ℕ) : ℕ :=
  if m = 1 then 0 else x

/-- `x @ W.T + b` on the trailing axis, as `nn.Linear` applies it;
fails (shape error) unless the trailing axis equals `inF`. -/
noncomputable def linearApply (l : LinearLayer) (x : Tensor) : Option Tensor :=
  if 0 < x.shape.length ∧ x.shape.getLastD 0 = l.inF then
    some ⟨x.shape.dropLast ++ [l.outF], fun n =>
      (∑ t ∈ Finset.range l.inF, x.data (n / l.outF * l.inF + t) * l.w (n % l.outF) t) +
        (if l.hasBias then l.b (n % l.outF) else 0)⟩
  else none

/-- `PrepareForMultiHeadAttention.forward` (notebook lines 46–64):
linear transform, then `view(*head_shape, n_heads, d_heads)` — a pure
reinterpretation of the trailing axis that keeps the flat data intact.
The `view` fails unless the element counts agree. -/
noncomputable def PrepareForMultiHeadAttention.forward
    (ph : PrepareForMultiHeadAttention) (x : Tensor) : Option Tensor :=
  (linearApply ph.linear x).bind fun y =>
    if y.shape.dropLast.prod * (ph.n_heads * ph.d_heads) = y.shape.prod then
      some ⟨y.shape.dropLast ++ [ph.n_heads, ph.d_heads], y.data⟩
    else none

/-- `seq_len, batch_size, _ = query.shape` (line 136): the unpacking
requires the query to be exactly 3-dimensional. -/
def seqBatch : List ℕ → Option (ℕ × ℕ)
  | [s, b, _] => some (s, b)
  | _ => none

/-- `MultiHeadAttention.get_scores` (lines 114–123):
`torch.einsum('ibhd,jbhd->ibhj', query, key)`.  The labelled sizes
`b`, `h`, `d` must agree between the operands. -/
noncomputable def get_scores (q k : Tensor) : Option Tensor :=
  if q.shape.length = 4 ∧ k.shape.length = 4 ∧
      q.shape.getD 1 0 = k.shape.getD 1 0 ∧
      q.shape.getD 2 0 = k.shape.getD 2 0 ∧
      q.shape.getD 3 0 = k.shape.getD 3 0 then
    some ⟨[q.shape.getD 0 0, q.shape.getD 1 0, q.shape.getD 2 0, k.shape.getD 0 0],
      fun n =>
        let b0 := q.shape.getD 1 0
        let h0 := q.shape.getD 2 0
        let d0 := q.shape.getD 3 0
        let j0 := k.shape.getD 0 0
        let i := n / (b0 * h0 * j0)
        let b := n / (h0 * j0) % b0
        let h := n / j0 % h0
        let j := n % j0
        ∑ d ∈ Finset.range d0,
          q.data (flat4 b0 h0 d0 i b h d) * k.data (flat4 b0 h0 d0 j b h d)⟩
  else none

/-- Multiplication of every score by the scale constant (line 146). -/
noncomputable def scaleT (c : ℝ) (t : Tensor) : Tensor :=
  ⟨t.shape, fun n => t.data n * c⟩

/-- `MultiHeadAttention.prepare_mask` (lines 125–133): the three
`assert` statements on the mask dimensions, then `unsqueeze(-1)`.
Failure of an assertion aborts the call before any numeric work. -/
def prepare_mask (m : MaskTensor) (qs ks : List ℕ) : Option MaskTensor :=
  if 3 ≤ m.shape.length ∧
      (m.shape.getD 0 0 = 1 ∨ m.shape.getD 0 0 = qs.getD 0 0) ∧
      m.shape.getD 1 0 = ks.getD 0 0 ∧
      (m.shape.getD 2 0 = 1 ∨ m.shape.getD 2 0 = qs.getD 1 0) then
    some ⟨m.shape ++ [1], m.data⟩
  else none

/-- Lift `prepare_mask` over an optional mask (line 138: the mask is
only prepared when one is supplied). -/
def prepareMaskOpt (mk : Option MaskTensor) (qs ks : List ℕ) : Option (Option MaskTensor) :=
  match mk with
  | none => some none
  | some m => (prepare_mask m qs ks).map some

/-- Whether `ms` is broadcastable onto the shape `ss`
(same rank, every axis equal or of size 1). -/
def bcOK (ms ss : List ℕ) : Bool :=
  ms.length == ss.length &&
    (List.range ss.length).all fun i => ms.getD i 0 == ss.getD i 0 || ms.getD i 0 == 1

/-- The flat index into the (broadcast) mask that governs flat position
`n` of a rank-4 score tensor of shape `ss`. -/
def bIdx (ms ss : List ℕ) (n : ℕ) : ℕ :=
  let s1 := ss.getD 1 0
  let s2 := ss.getD 2 0
  let s3 := ss.getD 3 0
  flat4 (ms.getD 1 0) (ms.getD 2 0) (ms.getD 3 0)
    (bc (n / (s1 * s2 * s3)) (ms.getD 0 0))
    (bc (n / (s2 * s3) % s1) (ms.getD 1 0))
    (bc (n / s3 % s2) (ms.getD 2 0))
    (bc (n % s3) (ms.getD 3 0))

/-- `scores.masked_fill(mask == 0, float('-inf'))` (lines 148–149).
The scores are kept unchanged; the returned boolean pattern marks the
entries that the fill replaced by `-inf` (true exactly where the
broadcast mask entry equals `0`).  With no mask the pattern is empty.
Fails unless the mask broadcasts onto the score shape. -/
noncomputable def maskFill (sc : Tensor) (mk : Option MaskTensor) :
    Option (Tensor × (ℕ → Bool)) :=
  match mk with
  | none => some (sc, fun _ => false)
  | some m =>
    if sc.shape.length = 4 ∧ m.shape.length = 4 ∧ bcOK m.shape sc.shape then
      some (sc, fun n => decide (m.data (bIdx m.shape sc.shape n) = 0))
    else none

/-- One exponential of the stabilised softmax: `0` where the score was
replaced by `-inf`, `exp` of the score otherwise (`exp(-inf) = 0`). -/
noncomputable def smE (t : Tensor) (pat : ℕ → Bool) (L r j : ℕ) : ℝ :=
  if pat (r * L + j) then 0 else Real.exp (t.data (r * L + j))

/-- `nn.Softmax(dim=-1)` (line 151) applied to scores with fill pattern
`pat`: every entry is its exponential divided by the row sum of
exponentials.  A fully filled row has row sum `0`; in the source such a
row is NaN (the embedding's `0/0` evaluates to `0`). -/
noncomputable def softmaxLast (t : Tensor) (pat : ℕ → Bool) : Tensor :=
  ⟨t.shape, fun n =>
    smE t pat (t.shape.getLastD 1) (n / t.shape.getLastD 1) (n % t.shape.getLastD 1) /
      ∑ j ∈ Finset.range (t.shape.getLastD 1),
        smE t pat (t.shape.getLastD 1) (n / t.shape.getLastD 1) j⟩

/-- `nn.Dropout(p)` (line 155): in training mode each element is kept
(and rescaled by `1/(1-p)`) or zeroed according to the random keep
pattern; in evaluation mode the input passes through unchanged. -/
noncomputable def dropoutApply (tr : Bool) (p : ℚ) (keep : ℕ → Bool) (t : Tensor) : Tensor :=
  match tr with
  | false => t
  | true => ⟨t.shape, fun n => if keep n then t.data n * (1 / (1 - (p : ℝ))) else 0⟩

/-- The aggregation einsum of line 157, exactly as written:
`torch.einsum('ijbh, jbhd->ibhd', attn, value)`.  The first operand's
axes are read as `(i, j, b, h)` and must satisfy the label constraints
against `value`'s `(j, b, h, d)`. -/
noncomputable def aggEinsum (a v : Tensor) : Option Tensor :=
  if a.shape.length = 4 ∧ v.shape.length = 4 ∧
      a.shape.getD 1 0 = v.shape.getD 0 0 ∧
      a.shape.getD 2 0 = v.shape.getD 1 0 ∧
      a.shape.getD 3 0 = v.shape.getD 2 0 then
    some ⟨[a.shape.getD 0 0, a.shape.getD 2 0, a.shape.getD 3 0, v.shape.getD 3 0],
      fun n =>
        let a1 := a.shape.getD 1 0
        let a2 := a.shape.getD 2 0
        let a3 := a.shape.getD 3 0
        let v1 := v.shape.getD 1 0
        let v2 := v.shape.getD 2 0
        let v3 := v.shape.getD 3 0
        let i := n / (a2 * a3 * v3)
        let b := n / (a3 * v3) % a2
        let h := n / v3 % a3
        let d := n % v3
        ∑ j ∈ Finset.range a1,
          a.data (flat4 a1 a2 a3 i j b h) * v.data (flat4 v1 v2 v3 j b h d)⟩
  else none

/-- `x.reshape(seq_len, batch_size, -1)` (line 161): the free axis is
inferred; fails unless `seq_len * batch_size` is positive and divides
the element count. -/
noncomputable def reshape3 (x : Tensor) (sl bs : ℕ) : Option Tensor :=
  if 0 < sl * bs ∧ sl * bs ∣ x.shape.prod then
    some ⟨[sl, bs, x.shape.prod / (sl * bs)], x.data⟩
  else none

/-- `MultiHeadAttention.forward` (lines 135–163), in the source's order:
unpack the query shape, prepare the optional mask, project query, key
and value, compute and scale the scores, apply the mask fill, softmax,
dropout, the aggregation einsum, the final reshape and the output
projection.  On success it returns the updated component (only the
diagnostic field `attn` changes, to the dropout-applied weights) and
the output tensor. -/
noncomputable def MultiHeadAttention.forward (m : MultiHeadAttention)
    (q k v : Tensor) (mk : Option MaskTensor) (tr : Bool) (keep : ℕ → Bool) :
    Option (MultiHeadAttention × Tensor) :=
  (seqBatch q.shape).bind fun sb =>
  (prepareMaskOpt mk q.shape k.shape).bind fun mkP =>
  (PrepareForMultiHeadAttention.forward m.queryP q).bind fun qh =>
  (PrepareForMultiHeadAttention.forward m.keyP k).bind fun kh =>
  (PrepareForMultiHeadAttention.forward m.valueP v).bind fun vh =>
  (get_scores qh kh).bind fun sc =>
  (maskFill (scaleT m.scale sc) mkP).bind fun mspat =>
  (aggEinsum (dropoutApply tr m.dropout_prob keep (softmaxLast mspat.1 mspat.2)) vh).bind fun x =>
  (reshape3 x sb.1 sb.2).bind fun x2 =>
  (linearApply m.output x2).map fun out =>
  ({ m with attn := some (dropoutApply tr m.dropout_prob keep (softmaxLast mspat.1 mspat.2)) }, out)

/-- The attention-weight pipeline of `forward` up to and including
dropout (lines 138–155): exactly the tensor that `forward` stores in
the diagnostic field `attn`. -/
noncomputable def attnPipeline (m : MultiHeadAttention)
    (q k : Tensor) (mk : Option MaskTensor) (tr : Bool) (keep : ℕ → Bool) :
    Option Tensor :=
  (prepareMaskOpt mk q.shape k.shape).bind fun mkP =>
  (PrepareForMultiHeadAttention.forward m.queryP q).bind fun qh =>
  (PrepareForMultiHeadAttention.forward m.keyP k).bind fun kh =>
  (get_scores qh kh).bind fun sc =>
  (maskFill (scaleT m.scale sc) mkP).map fun mspat =>
  dropoutApply tr m.dropout_prob keep (softmaxLast mspat.1 mspat.2)

/-- The fields `MultiHeadAttention.__init__` (lines 96–112) assigns:
`n_features = d_model // n_heads` (floor division, no divisibility
check), query/key projections with the caller's bias flag, the value
projection with `bias=True` unconditionally, an output linear layer
`d_model → d_model`, `scale = 1/sqrt(n_features)`, `attn = None`. -/
noncomputable def mkMHA (n_heads d_model : ℕ) (p : ℚ) (bias : Bool) (W : Weights) :
    MultiHeadAttention :=
  let nf := d_model / n_heads
  { n_heads := n_heads
    n_features := nf
    queryP := ⟨⟨d_model, n_heads * nf, W.wq, bias, W.bq⟩, n_heads, nf⟩
    keyP := ⟨⟨d_model, n_heads * nf, W.wk, bias, W.bk⟩, n_heads, nf⟩
    valueP := ⟨⟨d_model, n_heads * nf, W.wv, true, W.bv⟩, n_heads, nf⟩
    output := ⟨d_model, d_model, W.wo, true, W.bo⟩
    dropout_prob := p
    scale := 1 / Real.sqrt (nf : ℝ)
    attn := none }

/-- Construction of a `MultiHeadAttention` (lines 96–112).  `__init__`
has no validation of its own but can still fail, in this order:
`d_model // n_heads` (line 99) raises ZeroDivisionError when
`n_heads = 0`; `nn.Dropout` (line 109) rejects `p < 0` and `p > 1`;
`1 / math.sqrt(n_features)` (line 110) raises ZeroDivisionError when
`n_features = d_model // n_heads = 0` (i.e. `d_model < n_heads`).
Nothing checks that `d_model` is divisible by `n_heads`: `mkMHA` is
reached whenever `n_heads ≠ 0`, `p` is in range and `n_features ≠ 0`,
so the two floor divisions and the square root it contains are then
exactly the source's. -/
noncomputable def mhaInit (n_heads d_model : ℕ) (p : ℚ) (bias : Bool) (W : Weights) :
    Option MultiHeadAttention :=
  if n_heads = 0 then none
  else if p < 0 ∨ 1 < p then none
  else if d_model / n_heads = 0 then none
  else some (mkMHA n_heads d_model p bias W)

/-! ## Concrete instances used by the theorems -/

/-- Zero weights for all four linear layers. -/
noncomputable def W0 : Weights :=
  ⟨fun _ _ => 0, fun _ => 0, fun _ _ => 0, fun _ => 0,
   fun _ _ => 0, fun _ => 0, fun _ _ => 0, fun _ => 0⟩

/-- A constant-zero tensor of the given shape. -/
noncomputable def zeros (s : List ℕ) : Tensor := ⟨s, fun _ => 0⟩

/-- A keep-everything dropout pattern (the randomness is irrelevant in
evaluation mode). -/
def keepAll : ℕ → Bool := fun _ => true

/-- The component of the spec's scenario: 8 heads, `d_model = 512`. -/
noncomputable def mha512 : MultiHeadAttention := mkMHA 8 512 (1/10) true W0

/-- Query of shape `(5, 2, 512)` from the spec's scenario. -/
noncomputable def q512 : Tensor := zeros [5, 2, 512]

/-- Key/value of shape `(7, 2, 512)` from the spec's scenario. -/
noncomputable def kv512 : Tensor := zeros [7, 2, 512]

/-- Component with 3 heads and `d_model = 3` (one feature per head). -/
noncomputable def mha3 : MultiHeadAttention := mkMHA 3 3 (1/10) true W0

/-- Query of shape `(1, 2, 3)`. -/
noncomputable def q2a : Tensor := zeros [1, 2, 3]

/-- Key of shape `(4, 2, 3)`: key sequence length 4. -/
noncomputable def k2a : Tensor := zeros [4, 2, 3]

/-- Value of shape `(5, 2, 3)`: value sequence length 5 ≠ 4. -/
noncomputable def v2a : Tensor := zeros [5, 2, 3]

/-- A mask whose dim1 (= 1) differs from the key sequence length 4. -/
noncomputable def maskBad : MaskTensor := ⟨[1, 1, 1], fun _ => 1⟩

/-- The component the code constructs from `n_heads = 3`, `d_model = 8`:
construction succeeds although 3 does not divide 8. -/
noncomputable def mha38 : MultiHeadAttention := mkMHA 3 8 (1/10) true W0

/-- Query of shape `(1, 3, 8)` for `mha38`. -/
noncomputable def q38 : Tensor := zeros [1, 3, 8]

/-- Key/value of shape `(3, 3, 8)` for `mha38`. -/
noncomputable def kv38 : Tensor := zeros [3, 3, 8]

/-- Component with a single head and `d_model = 1`. -/
noncomputable def mha1 : MultiHeadAttention := mkMHA 1 1 (1/10) true W0

/-- Query of shape `(1, 2, 1)`: `Sq = 1`, `B = 2`. -/
noncomputable def q4a : Tensor := zeros [1, 2, 1]

/-- Key/value of shape `(3, 2, 1)`: `Sk = 3`, `B = 2`. -/
noncomputable def kv4a : Tensor := zeros [3, 2, 1]

/-- A mask of shape `(1, 3, 1)` that passes all `prepare_mask` checks:
key position 0 attendable, key positions 1 and 2 masked out. -/
noncomputable def mask4 : MaskTensor := ⟨[1, 3, 1], fun n => if n = 0 then 1 else 0⟩

/-- Query/key of shape `(1, 1, 1)`: a single query position, batch item,
and key position. -/
noncomputable def q5a : Tensor := zeros [1, 1, 1]

/-- A mask of shape `(1, 1, 1)` whose single entry is `0`: the only key
position of the only row is masked out (a fully masked row). -/
noncomputable def mask5 : MaskTensor := ⟨[1, 1, 1], fun _ => 0⟩

/-- The masked-score pair (scores and fill pattern) that `forward`
computes for `mha1` on `q5a`/`q5a` under `mask5`. -/
noncomputable def ms5 : Tensor × (ℕ → Bool) :=
  (maskFill (scaleT mha1.scale ((get_scores
      ((PrepareForMultiHeadAttention.forward mha1.queryP q5a).getD q5a)
      ((PrepareForMultiHeadAttention.forward mha1.keyP q5a).getD q5a)).getD q5a))
    ((prepareMaskOpt (some mask5) q5a.shape q5a.shape).getD none)).getD (q5a, fun _ => false)

/-- The component built from `n_heads = 8`, `d_model = 512`, zero
dropout, caller's bias flag `false`. -/
noncomputable def m6 : MultiHeadAttention := mkMHA 8 512 0 false W0

/-- A projection head with `d_model = 512`, 8 heads of width 64
(the spec's ProjectionHead scenario). -/
noncomputable def ph7 : PrepareForMultiHeadAttention :=
  ⟨⟨512, 512, fun _ _ => 0, true, fun _ => 0⟩, 8, 64⟩

/-- Input of shape `(10, 20, 512)` for the ProjectionHead scenario. -/
noncomputable def x7 : Tensor := zeros [10, 20, 512]

/-- The output `ph7` produces on `x7`. -/
noncomputable def y7 : Tensor := (PrepareForMultiHeadAttention.forward ph7 x7).getD x7

/-- Component with one head, `d_model = 1`, zero dropout. -/
noncomputable def m9 : MultiHeadAttention := mkMHA 1 1 0 true W0

/-- Tensor of shape `(1, 1, 1)` for the successful `forward` run. -/
noncomputable def q9 : Tensor := zeros [1, 1, 1]

/-- The (state, output) pair of the successful run of `forward` on
`m9` with query/key/value `q9` and no mask. -/
noncomputable def p9 : MultiHeadAttention × Tensor :=
  (MultiHeadAttention.forward m9 q9 q9 q9 none false keepAll).getD (m9, q9)

/-- Query of shape `(1, 2, 1)` for the mask-alignment run. -/
noncomputable def q10a : Tensor := zeros [1, 2, 1]

/-- Key of shape `(2, 2, 1)`: `Sk = 2 = B`, so the (misaligned) mask
broadcast of the code goes through without error. -/
noncomputable def k10a : Tensor := zeros [2, 2, 1]

/-- A mask of shape `(1, 2, 1)`: key position 0 attendable (entry 1),
key position 1 masked out (entry 0), for all queries and batch items. -/
noncomputable def mask10 : MaskTensor := ⟨[1, 2, 1], fun n => if n = 1 then 0 else 1⟩

/-- `mask10` after `prepare_mask` (trailing singleton axis appended). -/
noncomputable def mask10u : MaskTensor := ⟨[1, 2, 1, 1], mask10.data⟩

/-- The scaled score tensor (shape `(1, 2, 1, 2)`) that `forward`
computes for `mha1` on `q10a`/`k10a`. -/
noncomputable def sc10 : Tensor :=
  scaleT mha1.scale ((get_scores
    ((PrepareForMultiHeadAttention.forward mha1.queryP q10a).getD q10a)
    ((PrepareForMultiHeadAttention.forward mha1.keyP k10a).getD q10a)).getD q10a)

/-- The masked-score pair `masked_fill` produces from `sc10` and `mask10u`. -/
noncomputable def res10 : Tensor × (ℕ → Bool) :=
  (maskFill sc10 (some mask10u)).getD (sc10, fun _ => false)

/-! ## Helper lemmas -/

/-- Division of a row-major offset by the row length recovers the row. -/
lemma mul_add_div_self (x j s : ℕ) (hj : j < s) : (x * s + j) / s = x := by
  have hs : 0 < s := Nat.lt_of_le_of_lt (Nat.zero_le j) hj
  rw [Nat.mul_comm x s, Nat.mul_add_div hs, Nat.div_eq_of_lt hj, Nat.add_zero]

/-- Remainder of a row-major offset by the row length recovers the column. -/
lemma mul_add_mod_self (x j s : ℕ) (hj : j < s) : (x * s + j) % s = j := by
  rw [Nat.mul_comm x s, Nat.mul_add_mod, Nat.mod_eq_of_lt hj]

/-- Unpacking a rank-4 row-major flat index recovers all four coordinates. -/
lemma flat4_unpack (s1 s2 s3 i b h j : ℕ) (hb : b < s1) (hh : h < s2) (hj : j < s3) :
    flat4 s1 s2 s3 i b h j % s3 = j ∧
    flat4 s1 s2 s3 i b h j / s3 % s2 = h ∧
    flat4 s1 s2 s3 i b h j / (s2 * s3) % s1 = b ∧
    flat4 s1 s2 s3 i b h j / (s1 * s2 * s3) = i := by
  unfold flat4
  have h3 : ((i * s1 + b) * s2 + h) * s3 + j % s3 = ((i * s1 + b) * s2 + h) * s3 + j := by
    rw [Nat.mod_eq_of_lt hj]
  have hd3 : (((i * s1 + b) * s2 + h) * s3 + j) / s3 = (i * s1 + b) * s2 + h :=
    mul_add_div_self _ _ _ hj
  have hd23 : (((i * s1 + b) * s2 + h) * s3 + j) / (s2 * s3) = i * s1 + b := by
    rw [show s2 * s3 = s3 * s2 from Nat.mul_comm s2 s3, ← Nat.div_div_eq_div_mul, hd3,
      mul_add_div_self _ _ _ hh]
  refine ⟨mul_add_mod_self _ _ _ hj, ?_, ?_, ?_⟩
  · rw [hd3, mul_add_mod_self _ _ _ hh]
  · rw [hd23, mul_add_mod_self _ _ _ hb]
  · rw [show s1 * s2 * s3 = s2 * s3 * s1 by ring, ← Nat.div_div_eq_div_mul, hd23,
      mul_add_div_self _ _ _ hb]

/-- Every stabilised-softmax exponential is non-negative. -/
lemma smE_nonneg (t : Tensor) (pat : ℕ → Bool) (L r j : ℕ) : 0 ≤ smE t pat L r j := by
  unfold smE
  split
  · exact le_refl 0
  · exact (Real.exp_pos _).le

/-- A surviving (unfilled) entry has a strictly positive exponential. -/
lemma smE_pos_of_false (t : Tensor) (pat : ℕ → Bool) (L r j : ℕ)
    (h : pat (r * L + j) = false) : 0 < smE t pat L r j := by
  unfold smE
  rw [h]
  simpa using Real.exp_pos (t.data (r * L + j))

/-- An entry whose score was replaced by `-inf` normalises to `0`
(its exponential vanishes, so the quotient has numerator `0`). -/
lemma softmaxLast_zero_of_pat (t : Tensor) (pat : ℕ → Bool) (n : ℕ)
    (h : pat n = true) : (softmaxLast t pat).data n = 0 := by
  unfold softmaxLast smE
  dsimp only
  have hn : n / t.shape.getLastD 1 * t.shape.getLastD 1 + n % t.shape.getLastD 1 = n :=
    Nat.div_add_mod' n (t.shape.getLastD 1)
  rw [hn, h]
  simp

/-- The softmax entry at row `r`, column `j < L` is its exponential over
the row sum of exponentials. -/
lemma softmaxLast_row (t : Tensor) (pat : ℕ → Bool) (L r j : ℕ)
    (hL : t.shape.getLastD 1 = L) (hj : j < L) :
    (softmaxLast t pat).data (r * L + j) =
      smE t pat L r j / ∑ x ∈ Finset.range L, smE t pat L r x := by
  unfold softmaxLast
  dsimp only
  rw [hL, mul_add_div_self r j L hj, mul_add_mod_self r j L hj]

/-! ## Claim theorems -/

/-- C1: the spec's own scenario — query `(5, 2, 512)`, key/value
`(7, 2, 512)`, 8 heads, no mask — does not return a `(5, 2, 512)`
tensor: `forward` fails.  The aggregation einsum of line 157 reads the
attention tensor (laid out `(Sq, B, H, Sk) = (5, 2, 8, 7)` by
`get_scores`) with labels `(i, j, b, h)`, whose constraints against the
value tensor `(7, 2, 8, 64)` require `B = Sk`, `H = B`, `Sk = H`; here
`2 ≠ 7`, so the contraction is rejected and no output is produced. -/
theorem c1_agg_einsum_mismatch :
    MultiHeadAttention.forward mha512 q512 kv512 kv512 none false keepAll = none := rfl

/-- C2 counterexample: a key/value sequence-length mismatch
(`Sk = 4` for the key, `5` for the value) is not detected before
numeric work: all three projections complete (numeric work succeeds on
every input, including the mismatched value tensor), and the call only
fails later, at the aggregation einsum. -/
theorem c2_no_fail_fast_cx :
    (PrepareForMultiHeadAttention.forward mha3.queryP q2a).isSome = true ∧
    (PrepareForMultiHeadAttention.forward mha3.keyP k2a).isSome = true ∧
    (PrepareForMultiHeadAttention.forward mha3.valueP v2a).isSome = true ∧
    MultiHeadAttention.forward mha3 q2a k2a v2a none false keepAll = none :=
  ⟨rfl, rfl, rfl, rfl⟩

/-- C2 (amended): the only shape validation that runs before any
numeric work is `prepare_mask`'s assertions; when a supplied mask fails
them, the whole call aborts with no result. -/
theorem c2_mask_asserts_abort (m : MultiHeadAttention) (q k v : Tensor)
    (M : MaskTensor) (tr : Bool) (keep : ℕ → Bool)
    (h : prepare_mask M q.shape k.shape = none) :
    MultiHeadAttention.forward m q k v (some M) tr keep = none := by
  cases hsb : seqBatch q.shape with
  | none => simp [MultiHeadAttention.forward, hsb]
  | some sb => simp [MultiHeadAttention.forward, hsb, prepareMaskOpt, h]

/-- C2 witness: a mask whose dim1 (= 1) differs from the key sequence
length 4 aborts the call. -/
theorem c2_mask_asserts_abort_witness :
    MultiHeadAttention.forward mha3 q2a k2a v2a (some maskBad) false keepAll = none :=
  c2_mask_asserts_abort mha3 q2a k2a v2a maskBad false keepAll rfl

/-- C3 counterexample: constructing with `n_heads = 3`, `d_model = 8`
(not divisible) succeeds — no ConfigurationError is raised at
construction — and the invalid configuration then surfaces during a
later `forward` (at the output projection, whose input width
`3 * (8 / 3) = 6` no longer matches `d_model = 8`). -/
theorem c3_no_divisibility_check_cx :
    mhaInit 3 8 (1/10) true W0 = some mha38 ∧
    MultiHeadAttention.forward mha38 q38 kv38 kv38 none false keepAll = none := by
  constructor
  · rw [mhaInit, if_neg (by decide : ¬(3 = 0)),
      if_neg (by norm_num : ¬((1/10 : ℚ) < 0 ∨ 1 < (1/10 : ℚ))),
      if_neg (by decide : ¬(8 / 3 = 0))]
    rfl
  · rfl

/-- C3 (amended): construction fails exactly where the source raises —
`n_heads = 0` (ZeroDivisionError at `d_model // n_heads`), a dropout
probability that is negative or above 1 (`nn.Dropout`'s check; 1
itself is accepted), or `n_features = d_model // n_heads = 0`
(ZeroDivisionError at `1 / math.sqrt(0)`).  No failure is a
ConfigurationError, and mere non-divisibility of `d_model` by
`n_heads` is never rejected at construction. -/
theorem c3_init_failure_condition (nh dm : ℕ) (p : ℚ) (b : Bool) (W : Weights) :
    (mhaInit nh dm p b W).isSome = true ↔
      nh ≠ 0 ∧ ¬(p < 0 ∨ 1 < p) ∧ dm / nh ≠ 0 := by
  unfold mhaInit
  split
  · simp_all
  · split
    · simp_all
    · split <;> simp_all

/-- C4: with a perfectly valid mask (shape `(1, 3, 1)`, passing every
`prepare_mask` assertion) the call fails before any attention weight
exists: `masked_fill` rejects the broadcast of the prepared mask
`(1, 3, 1, 1)` against the scores, which are laid out
`(Sq, B, H, Sk) = (1, 2, 1, 3)` — the mask's key axis (size 3) meets
the scores' batch axis (size 2).  No masked position ever receives a
zero weight; the call produces nothing. -/
theorem c4_mask_broadcast_error :
    (prepare_mask mask4 q4a.shape kv4a.shape).isSome = true ∧
    MultiHeadAttention.forward mha1 q4a kv4a kv4a (some mask4) false keepAll = none :=
  ⟨rfl, rfl⟩

/-- C5 counterexample: a valid mask whose (broadcast) row masks out
every key position leaves the whole softmax row at `-inf`; the source
then produces NaN weights (here: a zero row), so the weights over the
key positions do not sum to 1. -/
theorem c5_fully_masked_row_cx :
    Option.map (fun w => ∑ j ∈ Finset.range 1, w.data j)
      (attnPipeline mha1 q5a q5a (some mask5) false keepAll) ≠ some 1 := by
  intro hcon
  have h1 : attnPipeline mha1 q5a q5a (some mask5) false keepAll
      = some (softmaxLast ms5.1 ms5.2) := rfl
  rw [h1, Option.map_some', Option.some.injEq, Finset.sum_range_one,
    softmaxLast_zero_of_pat ms5.1 ms5.2 0 rfl] at hcon
  exact zero_ne_one hcon

/-- C5 (amended): for every score row with at least one surviving
(non-`-inf`) entry, the normalised weights over the key positions are
non-negative and sum to exactly 1; this covers every row the
normalisation step of `forward` produces except fully masked rows. -/
theorem c5_softmax_rows (t : Tensor) (pat : ℕ → Bool) (L r : ℕ)
    (hL : t.shape.getLastD 1 = L)
    (hlive : ∃ j, j < L ∧ pat (r * L + j) = false) :
    (∑ j ∈ Finset.range L, (softmaxLast t pat).data (r * L + j)) = 1 ∧
      ∀ j, j < L → 0 ≤ (softmaxLast t pat).data (r * L + j) := by
  obtain ⟨j0, hj0, hp0⟩ := hlive
  have hS : 0 < ∑ x ∈ Finset.range L, smE t pat L r x :=
    Finset.sum_pos' (fun i _ => smE_nonneg t pat L r i)
      ⟨j0, Finset.mem_range.mpr hj0, smE_pos_of_false t pat L r j0 hp0⟩
  constructor
  · rw [Finset.sum_congr rfl fun j hj =>
      softmaxLast_row t pat L r j hL (Finset.mem_range.mp hj)]
    rw [← Finset.sum_div, div_self hS.ne']
  · intro j hj
    rw [softmaxLast_row t pat L r j hL hj]
    exact div_nonneg (smE_nonneg t pat L r j) hS.le

/-- C5 witness: a one-entry row with no mask normalises to weight 1. -/
theorem c5_softmax_rows_witness :
    (∑ j ∈ Finset.range 1,
        (softmaxLast (zeros [1, 1, 1, 1]) (fun _ => false)).data (0 * 1 + j)) = 1 ∧
      ∀ j, j < 1 → 0 ≤ (softmaxLast (zeros [1, 1, 1, 1]) (fun _ => false)).data (0 * 1 + j) :=
  c5_softmax_rows (zeros [1, 1, 1, 1]) (fun _ => false) 1 0 rfl ⟨0, Nat.zero_lt_one, rfl⟩

/-- C6: whatever bias flag the caller passes to construction, the value
projection's bias is enabled unconditionally, while the query and key
projections carry the caller's flag. -/
theorem c6_value_bias_forced (nh dm : ℕ) (p : ℚ) (b : Bool) (W : Weights)
    (m : MultiHeadAttention) (h : mhaInit nh dm p b W = some m) :
    m.valueP.linear.hasBias = true ∧ m.queryP.linear.hasBias = b ∧
      m.keyP.linear.hasBias = b := by
  unfold mhaInit at h
  split at h
  · cases h
  · split at h
    · cases h
    · split at h
      · cases h
      · rw [Option.some.injEq] at h
        subst h
        exact ⟨rfl, rfl, rfl⟩

/-- C6 witness: constructed with `bias = false`, the value projection
still has its bias enabled while query and key do not. -/
theorem c6_value_bias_forced_witness :
    m6.valueP.linear.hasBias = true ∧ m6.queryP.linear.hasBias = false ∧
      m6.keyP.linear.hasBias = false :=
  c6_value_bias_forced 8 512 0 false W0 m6 rfl

/-- C7: the projection head is the affine transform followed by a pure
reinterpretation of the trailing axis: the output carries exactly the
linear map's flat data (so reshaping it back to the linear output's
shape reproduces the linear output, element for element, with no
numeric change), and its shape is the input's leading axes followed by
`(n_heads, d_heads)`. -/
theorem c7_projection_pure_reshape (ph : PrepareForMultiHeadAttention) (x y : Tensor)
    (h : PrepareForMultiHeadAttention.forward ph x = some y) :
    y.shape = x.shape.dropLast ++ [ph.n_heads, ph.d_heads] ∧
      ∃ z, linearApply ph.linear x = some z ∧ y.data = z.data ∧
        Tensor.mk z.shape y.data = z := by
  rw [PrepareForMultiHeadAttention.forward, Option.bind_eq_some] at h
  obtain ⟨z, hz, hif⟩ := h
  split at hif
  · rw [Option.some.injEq] at hif
    subst hif
    have hzs : z.shape = x.shape.dropLast ++ [ph.linear.outF] := by
      rw [linearApply] at hz
      split at hz
      · rw [Option.some.injEq] at hz
        rw [← hz]
      · cases hz
    refine ⟨?_, z, hz, rfl, ?_⟩
    · dsimp only
      rw [hzs, List.dropLast_concat]
    · cases z
      rfl
  · cases hif

/-- C7 witness: the spec's scenario — `d_model = 512`, 8 heads of width
64, input `(10, 20, 512)` — yields output shape `(10, 20, 8, 64)`. -/
theorem c7_projection_pure_reshape_witness : y7.shape = [10, 20, 8, 64] :=
  ((c7_projection_pure_reshape ph7 x7 y7 rfl).1).trans rfl

set_option maxHeartbeats 1000000 in
/-- C8: in evaluation (non-training) mode dropout is a no-op: with
identical inputs, weights and keep pattern, the output tensor of
`forward` with dropout probability 3/10 equals the output with dropout
probability 0. -/
theorem c8_eval_dropout_noop (m : MultiHeadAttention) (q k v : Tensor)
    (mk : Option MaskTensor) (keep : ℕ → Bool) :
    Option.map Prod.snd
        (MultiHeadAttention.forward { m with dropout_prob := 3/10 } q k v mk false keep) =
      Option.map Prod.snd
        (MultiHeadAttention.forward { m with dropout_prob := 0 } q k v mk false keep) := by
  simp only [MultiHeadAttention.forward, dropoutApply, Option.map_bind, Option.map_map,
    Function.comp]
  rfl

/-- C9: a successful `forward` call changes nothing but the diagnostic
field `attn`: the head counts, all three projection heads (weights and
biases), the output projection, the dropout probability and the scale
constant are all preserved, and `attn` is set to exactly the
dropout-applied attention-weight tensor of the call. -/
theorem c9_forward_frame (m : MultiHeadAttention) (q k v : Tensor)
    (mk : Option MaskTensor) (tr : Bool) (keep : ℕ → Bool)
    (m2 : MultiHeadAttention) (t : Tensor)
    (h : MultiHeadAttention.forward m q k v mk tr keep = some (m2, t)) :
    (m2.n_heads = m.n_heads ∧ m2.n_features = m.n_features ∧
      m2.queryP = m.queryP ∧ m2.keyP = m.keyP ∧ m2.valueP = m.valueP ∧
      m2.output = m.output ∧ m2.dropout_prob = m.dropout_prob ∧
      m2.scale = m.scale) ∧
    m2.attn = attnPipeline m q k mk tr keep := by
  simp only [MultiHeadAttention.forward, Option.bind_eq_some, Option.map_eq_some'] at h
  obtain ⟨sb, hsb, mkP, hpm, qh, hq, kh, hk, vh, hv, sc, hsc, mspat, hmf, x, hx, x2, hx2,
    out, hout, hfin⟩ := h
  rw [Prod.mk.injEq] at hfin
  obtain ⟨hm2, -⟩ := hfin
  subst hm2
  refine ⟨⟨rfl, rfl, rfl, rfl, rfl, rfl, rfl, rfl⟩, ?_⟩
  rw [attnPipeline, hpm, Option.some_bind, hq, Option.some_bind, hk, Option.some_bind,
    hsc, Option.some_bind, hmf, Option.map_some']

/-- C9 witness: a concrete successful call preserves every non-`attn`
field and records the attention weights in `attn`. -/
theorem c9_forward_frame_witness :
    (p9.1.n_heads = m9.n_heads ∧ p9.1.n_features = m9.n_features ∧
      p9.1.queryP = m9.queryP ∧ p9.1.keyP = m9.keyP ∧ p9.1.valueP = m9.valueP ∧
      p9.1.output = m9.output ∧ p9.1.dropout_prob = m9.dropout_prob ∧
      p9.1.scale = m9.scale) ∧
    p9.1.attn = attnPipeline m9 q9 q9 none false keepAll :=
  c9_forward_frame m9 q9 q9 q9 none false keepAll p9.1 p9.2 rfl

/-- On rank-4 shapes `bIdx` is the broadcast-selected rank-4 index. -/
lemma bIdx_concrete (m0 m1 m2 m3 s0 s1 s2 s3 n : ℕ) :
    bIdx [m0, m1, m2, m3] [s0, s1, s2, s3] n =
      flat4 m1 m2 m3 (bc (n / (s1 * s2 * s3)) m0) (bc (n / (s2 * s3) % s1) m1)
        (bc (n / s3 % s2) m2) (bc (n % s3) m3) := rfl

/-- C10 counterexample: in a run whose mask passes `prepare_mask` and
whose `masked_fill` broadcast succeeds (scores of shape `(1, 2, 1, 2)`,
prepared mask `(1, 2, 1, 1)`), the mask entry for key position 1 is `0`
— yet the score at `(i, b, h, j) = (0, 0, 0, 1)` is NOT replaced by
`-inf` (the fill pattern there is `false`): the fill is not governed by
the entry of the score's key position. -/
theorem c10_mask_fill_misaligned_cx :
    prepare_mask mask10 q10a.shape k10a.shape = some mask10u ∧
    maskFill sc10 (some mask10u) = some res10 ∧
    mask10.data 1 = 0 ∧
    res10.2 (flat4 2 1 2 0 0 0 1) = false :=
  ⟨rfl, rfl, rfl, rfl⟩

/-- C10 (amended): the fill test is numeric — a score entry is replaced
by `-inf` exactly where the broadcast mask entry equals `0`, so any
nonzero entry counts as attendable — but the broadcast pairs the mask's
axes `(dim0, dim1, dim2)` with the scores' `(query, batch, head)` axes:
the fill at `(i, b, h, j)` reads the mask at
`(i or 0, b or 0, h or 0, 0)` — its key-position axis is indexed by the
batch coordinate, and the decision is independent of the actual key
position `j`. -/
theorem c10_mask_fill_condition (sc : Tensor) (M : MaskTensor)
    (res : Tensor × (ℕ → Bool)) (s0 s1 s2 s3 m0 m1 m2 i b h j : ℕ)
    (hm : maskFill sc (some M) = some res)
    (hsc : sc.shape = [s0, s1, s2, s3]) (hM : M.shape = [m0, m1, m2, 1])
    (hb : b < s1) (hh : h < s2) (hj : j < s3) :
    res.1 = sc ∧
      res.2 (flat4 s1 s2 s3 i b h j) =
        decide (M.data (flat4 m1 m2 1 (bc i m0) (bc b m1) (bc h m2) 0) = 0) := by
  simp only [maskFill] at hm
  split at hm
  · rw [Option.some.injEq] at hm
    subst hm
    refine ⟨rfl, ?_⟩
    dsimp only
    have e := flat4_unpack s1 s2 s3 i b h j hb hh hj
    rw [hsc, hM, bIdx_concrete, e.1, e.2.1, e.2.2.1, e.2.2.2,
      show bc j 1 = 0 from rfl]
  · cases hm

/-- C10 witness: at the concrete run of the counterexample's shapes,
the fill pattern at `(0, 0, 0, 1)` equals the numeric zero-test of the
mask entry selected by the broadcast (which reads the batch coordinate
into the mask's key axis). -/
theorem c10_mask_fill_condition_witness :
    res10.1 = sc10 ∧
      res10.2 (flat4 2 1 2 0 0 0 1) =
        decide (mask10u.data (flat4 2 1 1 (bc 0 1) (bc 0 2) (bc 0 1) 0) = 0) :=
  c10_mask_fill_condition sc10 mask10u res10 1 2 1 2 1 2 1 0 0 0 1 rfl rfl rfl
    (by decide) (by decide) (by decide)
